import Mathlib

/-!
Shallow embedding of `crates/polars-ops/src/frame/join/merge_sorted.rs`
(merge-sorted combination of two key-ascending-sorted tables).

Conventions:
* Rust iterators over chunked arrays yield `Option<T>` cells (validity
  marker included); cells are embedded as `Option` values.
* The generic `T: PartialOrd + Default + Copy` bound of
  `get_merge_indicator` is embedded as an explicit comparison dictionary:
  Bool-valued `le`/`lt` functions plus an explicit `dflt` standing for
  `T::default()`.
* `PolarsResult` is embedded as `Except`; Rust panics (`unwrap`,
  out-of-bounds indexing, `unreachable!()`) are embedded as a distinct
  error constructor carrying the panic message, so that user-facing
  errors and internal faults stay distinguishable.
-/

namespace MergeSorted

/-- User-facing polars error values raised by this module. -/
inductive PolarsError where
  | computeError (msg : String)
  | invalidOperation (msg : String)
  | schemaMismatch (msg : String)
  deriving DecidableEq, Repr

/-- Outcome of a fallible step: either a user-facing `PolarsError` or a
Rust panic (`unwrap` on `None`, out-of-bounds index, `unreachable!()`). -/
inductive MergeErr where
  | panic (msg : String)
  | err (e : PolarsError)
  deriving DecidableEq, Repr

/-! ## 4.1 Merge Indicator Generator (`get_merge_indicator`) -/

/-- Inner `loop` of `get_merge_indicator`: with `a` the current left value
(whose `B_INDICATOR` for the previous `current_b` has already been pushed
by the caller), drain `b` values. A drained `b < a` pushes `false`; the
first `b >= a` pushes `true` (for `a`), breaks, and becomes the new
pending `current_b`. `Sum.inl (out, b, bs)` is the break case;
`Sum.inr out` is the `b`-depleted case (the caller fills with `true`). -/
def indicatorBLoop (le : α → α → Bool) (a : α) :
    List α → List Bool → (List Bool × α × List α) ⊕ List Bool
  | [], out => Sum.inr out
  | b :: bs, out =>
      if le a b then Sum.inl (out ++ [true], b, bs)
      else indicatorBLoop le a bs (out ++ [false])

/-- Outer `for a in &mut a_iter` loop of `get_merge_indicator`, together
with the code after it.  `currentA`/`currentB` are the `current_a` /
`current_b` mutables; `bRest` is what remains of `b_iter` (`currentB` has
been taken from it but not yet emitted); `out` is the accumulator; `cap`
is `a_len + b_len`.  On `b` depletion the remainder is filled with `true`;
after `a` is depleted one `false` is pushed for the pending `current_b`
(via the `current_a < current_b` test and the trailing
`out.last() == A_INDICATOR` test of the source) and every remaining `b`
yields `false`. `out1.getLast?` stands for `out.last().unwrap()`; it is
only reached with `out` nonempty, so the unwrap panic cannot fire. -/
def indicatorALoop (le lt : α → α → Bool) (cap : Nat) :
    α → α → List α → List Bool → List α → List Bool
  | _, currentB, bRest, out, a :: aRest =>
      if le a currentB then
        indicatorALoop le lt cap a currentB bRest (out ++ [true]) aRest
      else
        match indicatorBLoop le a bRest (out ++ [false]) with
        | Sum.inl (out2, b2, bRest2) =>
            indicatorALoop le lt cap a b2 bRest2 out2 aRest
        | Sum.inr out2 => out2 ++ List.replicate (cap - out2.length) true
  | currentA, currentB, bRest, out, [] =>
      let out1 := if lt currentA currentB then out ++ [false] else out
      let out2 := if out1.getLast? = some true then out1 ++ [false] else out1
      out2 ++ List.replicate bRest.length false

/-- `get_merge_indicator` (merge_sorted.rs:235): boolean interleave order
for two iterators, `true` = take from `a` (left), `false` = take from `b`
(right).  `le x y` embeds `x <= y`, `lt x y` embeds `x < y`, and `dflt`
embeds `T::default()` (the initial value of `current_a`).  The two empty
guards reproduce the source verbatim: `a_len == 0` returns
`vec![true; b_len]` and `b_len == 0` returns `vec![false; a_len]`. -/
def get_merge_indicator (le lt : α → α → Bool) (dflt : α) (a b : List α) :
    List Bool :=
  if a.length = 0 then List.replicate b.length true
  else if b.length = 0 then List.replicate a.length false
  else
    match b with
    | [] => []  -- dead: `b.length = 0` was handled above, so `b` is nonempty
    | b0 :: bRest => indicatorALoop le lt (a.length + b.length) dflt b0 bRest [] a

/-- Decode an indicator: `true` takes the next unconsumed value of `a`,
`false` the next of `b` (the "selecting values by walking the indicator"
reading of the spec). -/
def decode_by_indicator : List Bool → List α → List α → List α
  | true :: ind, x :: as, bs => x :: decode_by_indicator ind as bs
  | false :: ind, as, y :: bs => y :: decode_by_indicator ind as bs
  | _, _, _ => []

/-- `x <= y` on `Int`, as the Bool-valued comparison dictionary entry. -/
def intLe (x y : Int) : Bool := decide (x ≤ y)

/-- `x < y` on `Int`, as the Bool-valued comparison dictionary entry. -/
def intLt (x y : Int) : Bool := decide (x < y)

/-- `x <= y` on `bool` (Rust `Ord`: `false < true`). -/
def boolLe (x y : Bool) : Bool := !x || y

/-- `x < y` on `bool`. -/
def boolLt (x y : Bool) : Bool := !x && y

/-- `x < y` on byte slices (Rust `[u8]` lexicographic order, a proper
prefix being smaller). -/
def bytesLt : List Nat → List Nat → Bool
  | [], [] => false
  | [], _ :: _ => true
  | _ :: _, [] => false
  | x :: xs, y :: ys => decide (x < y) || (decide (x = y) && bytesLt xs ys)

/-- `x <= y` on byte slices (total order, so `x <= y` iff `not (y < x)`). -/
def bytesLe (x y : List Nat) : Bool := !bytesLt y x

/-- `x <= y` on strings (Rust `str` order; category strings). -/
def strLe (x y : String) : Bool := decide (x ≤ y)

/-- `x < y` on strings. -/
def strLt (x y : String) : Bool := decide (x < y)

/-- Rust `Option<T> : PartialOrd` with `None` least: `x <= y`. -/
def optLe (le : α → α → Bool) : Option α → Option α → Bool
  | none, _ => true
  | some _, none => false
  | some x, some y => le x y

/-- Rust `Option<T> : PartialOrd` with `None` least: `x < y`. -/
def optLt (lt : α → α → Bool) : Option α → Option α → Bool
  | none, none => false
  | none, some _ => true
  | some _, none => false
  | some x, some y => lt x y

/-! ## Data model: dictionaries, dtypes, physical series, frames -/

/-- Modelled from the spec: `polars_core`'s `RevMapping` is outside this
core.  Spec §3: "Dictionary: mapping from integer code to string. Variant
Local: codes meaningful only within one column instance, tagged by a
content-identity hash. Variant Global: codes drawn from a shared interner
identified by a namespace id." -/
inductive RevMapping where
  | Local (categories : List String) (hash : Nat)
  | Global (map : List (Nat × String)) (srcId : Nat)
  deriving DecidableEq, Repr

/-- Modelled from the spec: the categorical ordering flag
(`CategoricalOrdering` of `polars_core`); §4.1 distinguishes categoricals
"using lexical (alphabetical) ordering semantics" from physical-code
ordering. -/
inductive CatOrdering where
  | physical
  | lexical
  deriving DecidableEq, Repr

/-- Modelled from the spec: the logical dtypes of §3 — boolean,
fixed-width numeric (collapsed to one embedded numeric kind), UTF-8 text,
raw binary, nested list, struct-of-columns, and categorical (codes plus
Dictionary and ordering flag). -/
inductive DataType where
  | boolean
  | int64
  | string
  | binary
  | categorical (revmap : Option RevMapping) (ord : CatOrdering)
  | struct (fields : List (String × DataType))
  | list (inner : DataType)

mutual
/-- Modelled from the spec: dtype equality (the `==` of
`polars_core::DataType`, an external collaborator) — §3 requires the two
key columns to "share an identical dtype", embedded as structural
equality of the modelled dtypes. -/
def dtypeEq : DataType → DataType → Bool
  | .boolean, .boolean => true
  | .int64, .int64 => true
  | .string, .string => true
  | .binary, .binary => true
  | .categorical r1 o1, .categorical r2 o2 => decide (r1 = r2) && decide (o1 = o2)
  | .struct f1, .struct f2 => dtypeFieldsEq f1 f2
  | .list d1, .list d2 => dtypeEq d1 d2
  | _, _ => false

/-- Structural equality of struct-field dtype lists (helper of `dtypeEq`). -/
def dtypeFieldsEq : List (String × DataType) → List (String × DataType) → Bool
  | [], [] => true
  | (n1, d1) :: t1, (n2, d2) :: t2 =>
      decide (n1 = n2) && dtypeEq d1 d2 && dtypeFieldsEq t1 t2
  | _, _ => false
end

/-- Physical (in-memory) representation of one column: each cell carries
its validity marker as an `Option`.  Strings are physically byte
sequences, categorical codes are physically integers (`numS`), and a
struct stores its own length, its outer-level null count, and its field
columns. -/
inductive PSeries where
  | boolS (values : List (Option Bool))
  | numS (values : List (Option Int))
  | stringS (values : List (Option (List Nat)))
  | binS (values : List (Option (List Nat)))
  | listS (values : List (Option (List Int)))
  | structS (len : Nat) (nullCount : Nat) (fields : List (String × PSeries))

/-- `Series::len` on the physical representation. -/
def psLength : PSeries → Nat
  | .boolS v => v.length
  | .numS v => v.length
  | .stringS v => v.length
  | .binS v => v.length
  | .listS v => v.length
  | .structS len _ _ => len

/-- A named column: logical dtype plus physical values
(`to_physical_repr` of the source is the projection to `phys`). -/
structure Series where
  name : String
  dtype : DataType
  phys : PSeries

/-- A table: explicit row count plus ordered named columns
(`DataFrame::new_no_checks` takes the height explicitly). -/
structure DataFrame where
  height : Nat
  columns : List Series

/-! ## 4.2 Dictionary Reconciler -/

/-- Modelled from the spec: `RevMapping::same_src` of `polars_core` —
§3: "categorical columns being merged must share dictionary origin (same
local hash, or same global namespace)"; differing variants never share an
origin. -/
def same_src : RevMapping → RevMapping → Bool
  | .Local _ lh, .Local _ rh => decide (lh = rh)
  | .Global _ lid, .Global _ rid => decide (lid = rid)
  | _, _ => false

/-- Modelled from the spec: the `GlobalRevMapMerger` of the
global-interner subsystem — §4.2: "merge the two dictionaries into a new
one covering the union of entries, producing a remapping for any codes
from the right side that were not already present on the left".  Left
entries are kept; right entries whose code the left map lacks are
appended. -/
def mergeGlobalMaps (l r : List (Nat × String)) : List (Nat × String) :=
  l ++ r.filter (fun p => (l.lookup p.1) = none)

/-- `check_and_union_revmaps` (merge_sorted.rs:5): identical locals yield
no new revmap; same-namespace globals yield the merged union revmap;
mismatched namespaces or hashes are a `ComputeError`; the `Local`/`Global`
cross pairing is the source's `unreachable!()`, and a missing revmap is
the source's `unwrap` panic. -/
def check_and_union_revmaps (lhs_revmap rhs_revmap : Option RevMapping) :
    Except MergeErr (Option RevMapping) :=
  match lhs_revmap, rhs_revmap with
  | some lhs, some rhs =>
      match lhs, rhs with
      | .Local _ l_hash, .Local _ r_hash =>
          if l_hash = r_hash then .ok none
          else .error (.err (.computeError "cannot merge-sort incompatible categoricals"))
      | .Global l_map l, .Global r_map r =>
          if l = r then .ok (some (.Global (mergeGlobalMaps l_map r_map) l))
          else .error (.err (.computeError "cannot merge-sort incompatible categoricals"))
      | _, _ => .error (.panic "internal error: entered unreachable code")
  | _, _ => .error (.panic "called Option::unwrap() on a None value")

/-! ## 4.3 Typed Merge Dispatcher (`merge_ca`, `merge_series`) -/

/-- `merge_ca` (merge_sorted.rs:157): walk the indicator and pull the
next unconsumed cell from the designated side; `a.next().unwrap()` /
`b.next().unwrap()` on an exhausted side is a panic, embedded as `none`.
The output has one cell per indicator entry. -/
def merge_ca_run : List Bool → List α → List α → Option (List α)
  | [], _, _ => some []
  | true :: ind, x :: as, bs => (merge_ca_run ind as bs).map (x :: ·)
  | false :: ind, as, y :: bs => (merge_ca_run ind as bs).map (y :: ·)
  | _, _, _ => none

/-- The cells of `out` at the positions where the mask holds. -/
def maskSelect : List Bool → List α → List α
  | true :: ind, x :: xs => x :: maskSelect ind xs
  | false :: ind, _ :: xs => maskSelect ind xs
  | _, _ => []

mutual
/-- `merge_series` (merge_sorted.rs:101): dispatch on the physical dtype
of `lhs` and interleave by the indicator.  Strings are dispatched via
binary and relabelled back (`as_binary` / `to_string_unchecked`); structs
first reject any outer-level null (`InvalidOperation`), then recurse
field-by-field and rebuild via `StructChunked::from_series` with length
`new_fields[0].len()` — an index panic when there are no fields.  A
constructor mismatch embeds the panicking `rhs` downcast
(`rhs.bool().unwrap()` and so on). -/
def merge_series (lhs rhs : PSeries) (merge_indicator : List Bool) :
    Except MergeErr PSeries :=
  match lhs, rhs with
  | .boolS a, .boolS b =>
      match merge_ca_run merge_indicator a b with
      | some out => .ok (.boolS out)
      | none => .error (.panic "called Option::unwrap() on a None value")
  | .stringS a, .stringS b =>
      match merge_ca_run merge_indicator a b with
      | some out => .ok (.stringS out)
      | none => .error (.panic "called Option::unwrap() on a None value")
  | .binS a, .binS b =>
      match merge_ca_run merge_indicator a b with
      | some out => .ok (.binS out)
      | none => .error (.panic "called Option::unwrap() on a None value")
  | .structS _ lNulls lFields, .structS _ rNulls rFields =>
      if lNulls + rNulls = 0 then
        match mergeStructFields lFields rFields merge_indicator with
        | .error e => .error e
        | .ok [] => .error (.panic "index out of bounds: the len is 0 but the index is 0")
        | .ok ((n, f) :: rest) => .ok (.structS (psLength f) 0 ((n, f) :: rest))
      else
        .error (.err (.invalidOperation
          "merge sorted with structs with outer nulls not yet supported"))
  | .listS a, .listS b =>
      match merge_ca_run merge_indicator a b with
      | some out => .ok (.listS out)
      | none => .error (.panic "called Option::unwrap() on a None value")
  | .numS a, .numS b =>
      match merge_ca_run merge_indicator a b with
      | some out => .ok (.numS out)
      | none => .error (.panic "called Option::unwrap() on a None value")
  | _, _ => .error (.panic "called Option::unwrap() on a None value")

/-- The field recursion of `merge_series`'s struct branch: zip the two
field lists (Rust `zip` truncates at the shorter), merge each pair with
the same indicator, keep the left field name, and fail on the first
failing field. -/
def mergeStructFields : List (String × PSeries) → List (String × PSeries) →
    List Bool → Except MergeErr (List (String × PSeries))
  | [], _, _ => .ok []
  | _ :: _, [], _ => .ok []
  | (n, l) :: ls, (_, r) :: rs, ind =>
      match merge_series l r ind with
      | .error e => .error e
      | .ok m =>
          match mergeStructFields ls rs ind with
          | .error e => .error e
          | .ok ms => .ok ((n, m) :: ms)
end

/-! ## Key extraction for the indicator (`series_to_merge_indicator`) -/

/-- `dtype.is_categorical()` of a series' dtype. -/
def seriesIsCategorical (s : Series) : Bool :=
  match s.dtype with
  | .categorical _ _ => true
  | _ => false

/-- Modelled from the spec: `uses_lexical_ordering` of
`polars_core`'s categorical arrays — §4.1's "categorical column using
lexical (alphabetical) ordering semantics", embedded as the dtype's
ordering flag. -/
def seriesUsesLexical (s : Series) : Bool :=
  match s.dtype with
  | .categorical _ .lexical => true
  | _ => false

/-- Modelled from the spec: decoding one categorical code through its
Dictionary, a "mapping from integer code to string" (§3). -/
def revmapDecode : RevMapping → Nat → Option String
  | .Local cats _, code => cats.get? code
  | .Global map _, code => map.lookup code

/-- Decode a list of physical categorical codes through a revmap; a null
cell stays `none`, and a code absent from the revmap is the source's
indexing panic inside `iter_str`. -/
def decodeCodes (rm : RevMapping) : List (Option Int) →
    Except MergeErr (List (Option String))
  | [] => .ok []
  | none :: t =>
      match decodeCodes rm t with
      | .ok r => .ok (none :: r)
      | .error e => .error e
  | some c :: t =>
      match revmapDecode rm c.toNat with
      | some s =>
          match decodeCodes rm t with
          | .ok r => .ok (some s :: r)
          | .error e => .error e
      | none => .error (.panic "index out of bounds")

/-- Modelled from the spec: `iter_str` of a categorical key column — §4.1:
"comparison is performed on the decoded string view, not on raw integer
codes".  Panics (`categorical().unwrap()`) when the series is not
categorical or carries no revmap. -/
def catIterStr (s : Series) : Except MergeErr (List (Option String)) :=
  match s.dtype, s.phys with
  | .categorical (some rm) _, .numS codes => decodeCodes rm codes
  | _, _ => .error (.panic "called Option::unwrap() on a None value")

mutual
/-- Modelled from the spec: the row-encoding subsystem, an external
collaborator that "serializes a composite (struct) key tuple into one
order-preserving byte string so structured keys can reuse the scalar
comparison path" (§6).  This executable stand-in tags each cell with a
validity byte and concatenates the fields' cell bytes; no theorem relies
on its exact layout. -/
def cellBytes : PSeries → Nat → List Nat
  | .boolS v, i =>
      match v.get? i with
      | some (some b) => [1, cond b 1 0]
      | some none => [0]
      | none => []
  | .numS v, i =>
      match v.get? i with
      | some (some n) => if n < 0 then [1, 0, n.natAbs] else [1, 1, n.natAbs]
      | some none => [0]
      | none => []
  | .stringS v, i =>
      match v.get? i with
      | some (some bs) => [1] ++ bs ++ [0]
      | some none => [0]
      | none => []
  | .binS v, i =>
      match v.get? i with
      | some (some bs) => [1] ++ bs ++ [0]
      | some none => [0]
      | none => []
  | .listS v, i =>
      match v.get? i with
      | some (some xs) => [1] ++ xs.map Int.natAbs ++ [0]
      | some none => [0]
      | none => []
  | .structS _ _ fields, i => fieldsBytes fields i

/-- Byte serialization of row `i` across a struct's fields (helper of the
row-encoding stand-in). -/
def fieldsBytes : List (String × PSeries) → Nat → List Nat
  | [], _ => []
  | (_, f) :: rest, i => cellBytes f i ++ fieldsBytes rest i
end

/-- `get_row_encoded` of a struct key column: one order-preserving byte
string per row (the row-encoding subsystem itself is spec-modelled via
`cellBytes`); panics (`struct_().unwrap()`) on a non-struct physical. -/
def get_row_encoded (p : PSeries) : Except MergeErr (List (Option (List Nat))) :=
  match p with
  | .structS len _ fields =>
      .ok ((List.range len).map (fun i => some (fieldsBytes fields i)))
  | _ => .error (.panic "called Option::unwrap() on a None value")

/-- `series_to_merge_indicator` (merge_sorted.rs:184): a categorical key
with lexical ordering is compared on the decoded string view; every other
key is compared on its physical representation (boolean, string via
binary, binary, struct via row encoding, or numeric).  Each branch passes
the matching `Option`-lifted comparison dictionary and `None` for
`T::default()`. -/
def series_to_merge_indicator (lhs rhs : Series) : Except MergeErr (List Bool) :=
  if seriesIsCategorical lhs && seriesUsesLexical lhs then
    match catIterStr lhs with
    | .error e => .error e
    | .ok lkeys =>
        match catIterStr rhs with
        | .error e => .error e
        | .ok rkeys =>
            .ok (get_merge_indicator (optLe strLe) (optLt strLt) none lkeys rkeys)
  else
    match lhs.phys, rhs.phys with
    | .boolS a, .boolS b =>
        .ok (get_merge_indicator (optLe boolLe) (optLt boolLt) none a b)
    | .stringS a, .stringS b =>
        .ok (get_merge_indicator (optLe bytesLe) (optLt bytesLt) none a b)
    | .binS a, .binS b =>
        .ok (get_merge_indicator (optLe bytesLe) (optLt bytesLt) none a b)
    | .structS lLen lNulls lFields, .structS rLen rNulls rFields =>
        match get_row_encoded (.structS lLen lNulls lFields) with
        | .error e => .error e
        | .ok lkeys =>
            match get_row_encoded (.structS rLen rNulls rFields) with
            | .error e => .error e
            | .ok rkeys =>
                .ok (get_merge_indicator (optLe bytesLe) (optLt bytesLt) none lkeys rkeys)
    | .numS a, .numS b =>
        .ok (get_merge_indicator (optLe intLe) (optLt intLt) none a b)
    | _, _ => .error (.panic "called Option::unwrap() on a None value")

/-! ## 4.4 Frame Assembler (`_merge_sorted_dfs`) -/

/-- Structural schema comparison of two column lists: same names and
dtypes in the same order (helper of `schema_equal`). -/
def schemaEqCols : List Series → List Series → Bool
  | [], [] => true
  | a :: as, b :: bs =>
      decide (a.name = b.name) && dtypeEq a.dtype b.dtype && schemaEqCols as bs
  | _, _ => false

/-- Modelled from the spec: `DataFrame::schema_equal` of the excluded
table-storage collaborator — §4.4 step 1: "verify both tables have
identical column names and dtypes in identical order". -/
def schema_equal (l r : DataFrame) : Bool :=
  schemaEqCols l.columns r.columns

/-- `left_s.categorical().unwrap().get_rev_map()`: the revmap attached to
a categorical key series; panics when the series is not categorical or
has no revmap attached. -/
def getRevMap (s : Series) : Except MergeErr RevMapping :=
  match s.dtype with
  | .categorical (some rm) _ => .ok rm
  | _ => .error (.panic "called Option::unwrap() on a None value")

/-- The categorical-key compatibility block of `_merge_sorted_dfs`
(merge_sorted.rs:48): when the key dtype is categorical, both revmaps
must share a source (`same_src`), otherwise a `ComputeError`. -/
def catCompatCheck (left_s right_s : Series) : Except MergeErr Unit :=
  if seriesIsCategorical left_s then
    match getRevMap left_s with
    | .error e => .error e
    | .ok rl =>
        match getRevMap right_s with
        | .error e => .error e
        | .ok rr =>
            if same_src rl rr then .ok ()
            else .error (.err (.computeError
                "can only merge-sort categoricals with the same categories"))
  else .ok ()

/-- The per-column body of `_merge_sorted_dfs`'s map
(merge_sorted.rs:69): convert both columns to physical, interleave with
`merge_series`, then pick the output dtype — for a categorical pair the
union revmap from `check_and_union_revmaps` when one is produced,
otherwise the left dtype — and rebuild the column
(`from_physical_unchecked`) under the left column's name. -/
def mergeColumn (lhs rhs : Series) (merge_indicator : List Bool) :
    Except MergeErr Series :=
  match merge_series lhs.phys rhs.phys merge_indicator with
  | .error e => .error e
  | .ok out =>
      match lhs.dtype, rhs.dtype with
      | .categorical lhs_revmap ord, .categorical rhs_revmap _ =>
          match check_and_union_revmaps lhs_revmap rhs_revmap with
          | .error e => .error e
          | .ok (some new_revmap) =>
              .ok ⟨lhs.name, .categorical (some new_revmap) ord, out⟩
          | .ok none => .ok ⟨lhs.name, lhs.dtype, out⟩
      | _, _ => .ok ⟨lhs.name, lhs.dtype, out⟩

/-- The column zip of `_merge_sorted_dfs` (Rust `zip` truncates at the
shorter side; `collect::<PolarsResult<_>>` stops at the first error). -/
def mergeColumns : List Series → List Series → List Bool →
    Except MergeErr (List Series)
  | [], _, _ => .ok []
  | _ :: _, [], _ => .ok []
  | l :: ls, r :: rs, ind =>
      match mergeColumn l r ind with
      | .error e => .error e
      | .ok c =>
          match mergeColumns ls rs ind with
          | .error e => .error e
          | .ok cs => .ok (c :: cs)

/-- `_merge_sorted_dfs` (merge_sorted.rs:30): optional schema check, key
dtype equality check, categorical-source compatibility check, the two
empty-side short-circuits, then indicator computation and column-wise
interleave into a frame of height `left.height + right.height`. -/
def _merge_sorted_dfs (left right : DataFrame) (left_s right_s : Series)
    (check_schema : Bool) : Except MergeErr DataFrame :=
  if check_schema = true ∧ schema_equal left right = false then
    .error (.err (.schemaMismatch "schemas are not equal"))
  else if dtypeEq left_s.dtype right_s.dtype = false then
    .error (.err (.computeError "merge-sort datatype mismatch"))
  else
    match catCompatCheck left_s right_s with
    | .error e => .error e
    | .ok () =>
        if psLength right_s.phys = 0 then .ok left
        else if psLength left_s.phys = 0 then .ok right
        else
          match series_to_merge_indicator left_s right_s with
          | .error e => .error e
          | .ok merge_indicator =>
              match mergeColumns left.columns right.columns merge_indicator with
              | .error e => .error e
              | .ok new_columns => .ok ⟨left.height + right.height, new_columns⟩

/-! ## Claims about `get_merge_indicator` -/

/-- C1: the universally quantified indicator claim fails on the code at an
empty left input.  For `a = []`, `b = [0]` the source's empty-left guard
returns `vec![true; b_len]`, so the indicator is `[true]`: it has one
`true` entry although `|a| = 0` (the claim demands exactly `|a|` true and
`|b|` false entries, i.e. `[false]`), and walking it would take a value
from the empty left side.  This exhibits the code bug; the guard
contradicts the function's own comment "left: true, right: false". -/
theorem get_merge_indicator_empty_left_miscounts :
    get_merge_indicator intLe intLt 0 ([] : List Int) [0] = [true] ∧
    (get_merge_indicator intLe intLt 0 ([] : List Int) [0]).count true = 1 ∧
    (get_merge_indicator intLe intLt 0 ([] : List Int) [0]).count false = 0 := by
  decide

/-- C2: both empty-side shortcuts of the source are swapped relative to
the claim.  `get_merge_indicator [] [3,7]` returns the all-`true` vector
`[true, true]` where the claim requires all-`false`, and
`get_merge_indicator [3,7] []` returns `[false, false]` where the claim
requires all-`true`. -/
theorem get_merge_indicator_empty_sides_swapped :
    get_merge_indicator intLe intLt 0 ([] : List Int) [3, 7] = [true, true] ∧
    get_merge_indicator intLe intLt 0 [3, 7] ([] : List Int) = [false, false] := by
  decide

/-- C3: on `a = [1,2,4,6,9]`, `b = [2,3,4,5,10]` the indicator is exactly
`[T,T,F,F,T,F,F,T,T,F]` (left taken first at every tie) and decoding it
yields `1,2,2,3,4,4,5,6,9,10`. -/
theorem get_merge_indicator_tie_break_example :
    get_merge_indicator intLe intLt 0 [1, 2, 4, 6, 9] ([2, 3, 4, 5, 10] : List Int) =
      [true, true, false, false, true, false, false, true, true, false] ∧
    decode_by_indicator
        (get_merge_indicator intLe intLt 0 [1, 2, 4, 6, 9] ([2, 3, 4, 5, 10] : List Int))
        [1, 2, 4, 6, 9] [2, 3, 4, 5, 10] =
      ([1, 2, 2, 3, 4, 4, 5, 6, 9, 10] : List Int) := by
  decide

/-- C10: for an indicator with exactly `|a|` true and `|b|` false
entries, `merge_ca` is total (no internal `unwrap` fires) and returns a
column of length `|a| + |b|` in which the cells at true positions are
exactly `a` (in order, validity markers included) and the cells at false
positions are exactly `b`; an indicator of matching combined length but
wrong counts (second conjunct: `[true]` against an empty left and a
one-cell right) makes the extraction fail. -/
theorem merge_ca_run_total_and_positionwise {α : Type} :
    (∀ (ind : List Bool) (a b : List α),
        ind.count true = a.length → ind.count false = b.length →
        ∃ out, merge_ca_run ind a b = some out ∧
          out.length = a.length + b.length ∧
          maskSelect ind out = a ∧
          maskSelect (ind.map (fun x => !x)) out = b) ∧
    merge_ca_run [true] ([] : List (Option Int)) [some 0] = none := by
  refine ⟨?_, rfl⟩
  intro ind
  induction ind with
  | nil =>
      intro a b ha hb
      simp only [List.count_nil] at ha hb
      obtain rfl : a = [] := List.length_eq_zero.mp ha.symm
      obtain rfl : b = [] := List.length_eq_zero.mp hb.symm
      exact ⟨[], rfl, rfl, rfl, rfl⟩
  | cons i t ih =>
      intro a b ha hb
      cases i with
      | true =>
          rw [List.count_cons_self] at ha
          rw [List.count_cons_of_ne (by decide : (false : Bool) ≠ true)] at hb
          cases a with
          | nil => simp at ha
          | cons x as =>
              have ha' : t.count true = as.length := by
                simp only [List.length_cons] at ha
                omega
              obtain ⟨out, h1, h2, h3, h4⟩ := ih as b ha' hb
              refine ⟨x :: out, ?_, ?_, ?_, ?_⟩
              · simp [merge_ca_run, h1]
              · simp only [List.length_cons, h2]; omega
              · simp [maskSelect, h3]
              · simp [maskSelect, h4]
      | false =>
          rw [List.count_cons_self] at hb
          rw [List.count_cons_of_ne (by decide : (true : Bool) ≠ false)] at ha
          cases b with
          | nil => simp at hb
          | cons y bs =>
              have hb' : t.count false = bs.length := by
                simp only [List.length_cons] at hb
                omega
              obtain ⟨out, h1, h2, h3, h4⟩ := ih a bs ha hb'
              refine ⟨y :: out, ?_, ?_, ?_, ?_⟩
              · simp [merge_ca_run, h1]
              · simp only [List.length_cons, h2]; omega
              · simp [maskSelect, h3]
              · simp [maskSelect, h4]

/-- C10 witness: the theorem applied to the indicator `[true, false]`,
left `[some 5]`, right `[none]` (one valid cell, one null cell). -/
theorem merge_ca_run_total_and_positionwise_witness :
    ∃ out, merge_ca_run [true, false] [some (5 : Int)] [none] = some out ∧
      out.length = 2 ∧
      maskSelect [true, false] out = [some 5] ∧
      maskSelect ([true, false].map (fun x => !x)) out = [none] :=
  merge_ca_run_total_and_positionwise.1 [true, false] [some 5] [none] rfl rfl

/-- C4: with the arguments swapped the indicator is
`[F,T,F,T,T,F,T,F,F,T]`, and it is not the element-wise negation of the
original indicator, because ties always favor the left argument. -/
theorem get_merge_indicator_swap_not_negation :
    get_merge_indicator intLe intLt 0 [2, 3, 4, 5, 10] ([1, 2, 4, 6, 9] : List Int) =
      [false, true, false, true, true, false, true, false, false, true] ∧
    get_merge_indicator intLe intLt 0 [2, 3, 4, 5, 10] ([1, 2, 4, 6, 9] : List Int) ≠
      (get_merge_indicator intLe intLt 0 [1, 2, 4, 6, 9] ([2, 3, 4, 5, 10] : List Int)).map
        (fun x => !x) := by
  decide

/-! ## Association-list helper lemmas (for the dictionary-union claim) -/

/-- A key found in the left part of an appended association list is found
in the appended list with the same value. -/
theorem lookup_append_of_some {l r : List (Nat × String)} {c : Nat} {s : String}
    (h : l.lookup c = some s) : (l ++ r).lookup c = some s := by
  induction l with
  | nil => simp [List.lookup] at h
  | cons p t ih =>
      obtain ⟨k, v⟩ := p
      by_cases hck : c = k
      · subst hck
        simpa [List.lookup_cons] using h
      · rw [List.lookup_cons, beq_false_of_ne hck] at h
        show List.lookup c ((k, v) :: (t ++ r)) = some s
        rw [List.lookup_cons, beq_false_of_ne hck]
        exact ih h

/-- A key absent from the left part of an appended association list is
looked up in the right part. -/
theorem lookup_append_of_none {l r : List (Nat × String)} {c : Nat}
    (h : l.lookup c = none) : (l ++ r).lookup c = r.lookup c := by
  induction l with
  | nil => rfl
  | cons p t ih =>
      obtain ⟨k, v⟩ := p
      by_cases hck : c = k
      · subst hck
        simp [List.lookup_cons] at h
      · rw [List.lookup_cons, beq_false_of_ne hck] at h
        show List.lookup c ((k, v) :: (t ++ r)) = List.lookup c r
        rw [List.lookup_cons, beq_false_of_ne hck]
        exact ih h

/-- Filtering an association list by the "code absent on the left"
predicate does not change the lookup of a code absent on the left. -/
theorem lookup_filter_key {rm : List (Nat × String)} {lm : List (Nat × String)} {c : Nat}
    (h : lm.lookup c = none) :
    (rm.filter (fun p => lm.lookup p.1 = none)).lookup c = rm.lookup c := by
  induction rm with
  | nil => rfl
  | cons p t ih =>
      obtain ⟨k, v⟩ := p
      by_cases hck : c = k
      · subst hck
        simp [List.filter_cons, h, List.lookup_cons]
      · cases hkeep : (decide (lm.lookup k = none)) with
        | true =>
            simp only [List.filter_cons, hkeep, if_pos]
            rw [List.lookup_cons, List.lookup_cons, beq_false_of_ne hck]
            exact ih
        | false =>
            simp only [List.filter_cons, hkeep, Bool.false_eq_true, if_neg,
              not_false_eq_true]
            rw [List.lookup_cons, beq_false_of_ne hck]
            exact ih

/-- A key with a lookup hit occurs among the keys of the list. -/
theorem mem_keys_of_lookup_some {rm : List (Nat × String)} {c : Nat} {s : String}
    (h : rm.lookup c = some s) : c ∈ rm.map Prod.fst := by
  induction rm with
  | nil => simp [List.lookup] at h
  | cons p t ih =>
      obtain ⟨k, v⟩ := p
      by_cases hck : c = k
      · subst hck
        simp
      · rw [List.lookup_cons, beq_false_of_ne hck] at h
        simpa using Or.inr (ih h)

/-! ## Claims about the reconciler, dispatcher and assembler -/

/-- C6: for two Global revmaps of the same namespace id (with agreeing
entries on shared codes, as a shared interner guarantees),
`check_and_union_revmaps` produces a new revmap whose entry set is the
union of both inputs' entries and in which every code of either input
decodes to the same string it decoded to in its input; differing
namespace ids fail with the incompatibility `ComputeError`.  The inputs
are untouched (the embedding is pure; the merged map is a fresh value). -/
theorem check_and_union_revmaps_global
    (lm rm : List (Nat × String)) (lid rid : Nat)
    (hagree : ∀ c ∈ rm.map Prod.fst, lm.lookup c = none ∨ lm.lookup c = rm.lookup c) :
    (lid = rid →
      check_and_union_revmaps (some (.Global lm lid)) (some (.Global rm rid)) =
        .ok (some (.Global (mergeGlobalMaps lm rm) lid)) ∧
      (∀ c, ((mergeGlobalMaps lm rm).lookup c).isSome ↔
          (lm.lookup c).isSome ∨ (rm.lookup c).isSome) ∧
      (∀ c s, lm.lookup c = some s → (mergeGlobalMaps lm rm).lookup c = some s) ∧
      (∀ c s, rm.lookup c = some s → (mergeGlobalMaps lm rm).lookup c = some s)) ∧
    (lid ≠ rid →
      check_and_union_revmaps (some (.Global lm lid)) (some (.Global rm rid)) =
        .error (.err (.computeError "cannot merge-sort incompatible categoricals"))) := by
  constructor
  · intro hid
    subst hid
    refine ⟨by simp [check_and_union_revmaps], ?_, ?_, ?_⟩
    · intro c
      cases hl : lm.lookup c with
      | some s =>
          have h1 := lookup_append_of_some (r := rm.filter (fun p => lm.lookup p.1 = none)) hl
          simp only [mergeGlobalMaps]
          simp [h1, hl]
      | none =>
          have h2 := lookup_append_of_none (r := rm.filter (fun p => lm.lookup p.1 = none)) hl
          simp only [mergeGlobalMaps]
          rw [h2, lookup_filter_key hl]
          simp [hl]
    · intro c s hs
      exact lookup_append_of_some hs
    · intro c s hs
      cases hl : lm.lookup c with
      | none =>
          have h2 := lookup_append_of_none (r := rm.filter (fun p => lm.lookup p.1 = none)) hl
          simp only [mergeGlobalMaps]
          rw [h2, lookup_filter_key hl, hs]
      | some sl =>
          rcases hagree c (mem_keys_of_lookup_some hs) with h | h
          · rw [hl] at h; cases h
          · rw [hl, hs] at h
            cases h
            exact lookup_append_of_some hl
  · intro hid
    simp [check_and_union_revmaps, hid]

/-- C6 witness: merging `{0 ↦ "a", 1 ↦ "b"}` with `{1 ↦ "b", 2 ↦ "c"}`
in namespace 7 yields the union dictionary `{0 ↦ "a", 1 ↦ "b", 2 ↦ "c"}`. -/
theorem check_and_union_revmaps_global_witness :
    check_and_union_revmaps (some (.Global [(0, "a"), (1, "b")] 7))
        (some (.Global [(1, "b"), (2, "c")] 7)) =
      .ok (some (.Global [(0, "a"), (1, "b"), (2, "c")] 7)) := by
  have h := ((check_and_union_revmaps_global [(0, "a"), (1, "b")] [(1, "b"), (2, "c")] 7 7
      (by decide)).1 rfl).1
  rw [h]
  rfl

/-- C7: for two Local revmaps, an equal content-identity hash yields
`Ok(None)` — no new dictionary, and the merged column keeps the left
(shared) categorical dtype untouched, its codes having been interleaved
as raw integers by `merge_series`; differing hashes yield the
incompatibility `ComputeError`, and `same_src` is already false so the
frame-level categorical key check fails before any merge. -/
theorem check_and_union_revmaps_local (lc rc : List String) (lh rh : Nat) :
    (lh = rh →
      check_and_union_revmaps (some (.Local lc lh)) (some (.Local rc rh)) = .ok none ∧
      (∀ (lname rname : String) (ord : CatOrdering) (pl pr out : PSeries)
          (ind : List Bool), merge_series pl pr ind = .ok out →
        mergeColumn ⟨lname, .categorical (some (.Local lc lh)) ord, pl⟩
            ⟨rname, .categorical (some (.Local rc rh)) ord, pr⟩ ind =
          .ok ⟨lname, .categorical (some (.Local lc lh)) ord, out⟩)) ∧
    (lh ≠ rh →
      check_and_union_revmaps (some (.Local lc lh)) (some (.Local rc rh)) =
        .error (.err (.computeError "cannot merge-sort incompatible categoricals")) ∧
      same_src (.Local lc lh) (.Local rc rh) = false) := by
  constructor
  · intro hh
    subst hh
    refine ⟨by simp [check_and_union_revmaps], ?_⟩
    intro lname rname ord pl pr out ind hms
    simp [mergeColumn, hms, check_and_union_revmaps]
  · intro hh
    refine ⟨by simp [check_and_union_revmaps, hh], by simp [same_src, hh]⟩

/-- C7 witness: equal hashes keep the shared dictionary (including
through `mergeColumn` on concrete integer codes), differing hashes fail. -/
theorem check_and_union_revmaps_local_witness :
    check_and_union_revmaps (some (.Local ["a", "b"] 42)) (some (.Local ["a", "b"] 42)) =
      .ok none ∧
    mergeColumn ⟨"k", .categorical (some (.Local ["a", "b"] 42)) .physical, .numS [some 0]⟩
        ⟨"k", .categorical (some (.Local ["a", "b"] 42)) .physical, .numS [some 1]⟩
        [true, false] =
      .ok ⟨"k", .categorical (some (.Local ["a", "b"] 42)) .physical,
        .numS [some 0, some 1]⟩ ∧
    check_and_union_revmaps (some (.Local ["a", "b"] 42)) (some (.Local ["c"] 43)) =
      .error (.err (.computeError "cannot merge-sort incompatible categoricals")) := by
  refine ⟨((check_and_union_revmaps_local ["a", "b"] ["a", "b"] 42 42).1 rfl).1, ?_, ?_⟩
  · exact ((check_and_union_revmaps_local ["a", "b"] ["a", "b"] 42 42).1 rfl).2
      "k" "k" .physical (.numS [some 0]) (.numS [some 1]) (.numS [some 0, some 1])
      [true, false] rfl
  · exact ((check_and_union_revmaps_local ["a", "b"] ["c"] 42 43).2 (by decide)).1

/-- C8 (amended): a struct pair with any outer-level null on either side
is rejected with the `InvalidOperation` error before any merged struct
value is produced; with zero outer nulls on both sides and at least one
field, the merge recurses field-by-field with the same indicator
(`mergeStructFields`) and rebuilds the struct from the merged fields. -/
theorem merge_series_struct_nulls_and_recursion
    (lLen rLen lNulls rNulls : Nat) (lF rF : List (String × PSeries))
    (ind : List Bool) :
    (0 < lNulls + rNulls →
      merge_series (.structS lLen lNulls lF) (.structS rLen rNulls rF) ind =
        .error (.err (.invalidOperation
          "merge sorted with structs with outer nulls not yet supported"))) ∧
    (lNulls = 0 → rNulls = 0 →
      ∀ (n : String) (f : PSeries) (fs : List (String × PSeries)),
        mergeStructFields lF rF ind = .ok ((n, f) :: fs) →
        merge_series (.structS lLen lNulls lF) (.structS rLen rNulls rF) ind =
          .ok (.structS (psLength f) 0 ((n, f) :: fs))) := by
  constructor
  · intro hn
    rw [merge_series]
    rw [if_neg (by omega)]
  · intro hl hr n f fs hfields
    subst hl; subst hr
    rw [merge_series]
    rw [if_pos rfl, hfields]

/-- C8 counterexample: a zero-field struct with zero outer nulls on both
sides is not merged field-by-field — the rebuild indexes `new_fields[0]`
and panics, so the claim's unconditional recursion statement fails. -/
theorem merge_series_struct_empty_fields_cex :
    merge_series (.structS 0 0 []) (.structS 0 0 []) [] =
      .error (.panic "index out of bounds: the len is 0 but the index is 0") := rfl

/-- C8 witness: one outer null on the left is rejected; null-free
one-field structs recurse into the field merge. -/
theorem merge_series_struct_nulls_and_recursion_witness :
    merge_series (.structS 1 1 [("x", .numS [none])])
        (.structS 1 0 [("x", .numS [some 2])]) [true, false] =
      .error (.err (.invalidOperation
        "merge sorted with structs with outer nulls not yet supported")) ∧
    merge_series (.structS 1 0 [("x", .numS [some 1])])
        (.structS 1 0 [("x", .numS [some 2])]) [true, false] =
      .ok (.structS 2 0 [("x", .numS [some 1, some 2])]) := by
  constructor
  · exact (merge_series_struct_nulls_and_recursion 1 1 1 0 [("x", .numS [none])]
      [("x", .numS [some 2])] [true, false]).1 (by omega)
  · exact (merge_series_struct_nulls_and_recursion 1 1 0 0 [("x", .numS [some 1])]
      [("x", .numS [some 2])] [true, false]).2 rfl rfl "x" (.numS [some 1, some 2]) [] rfl

/-- C9: once the two categorical dtypes have passed the upstream
structural dtype-equality check of `_merge_sorted_dfs`, the
`Local`-versus-`Global` catch-all of `check_and_union_revmaps` (the
source's `unreachable!()`) can never fire: equal dtypes carry equal
revmaps, so the match always lands in the `Local`/`Local` or
`Global`/`Global` arm (or, with no revmap attached, in the earlier
`unwrap` panic, which is a different fault). -/
theorem check_and_union_revmaps_no_unreachable
    (rl rr : Option RevMapping) (o1 o2 : CatOrdering)
    (h : dtypeEq (.categorical rl o1) (.categorical rr o2) = true) :
    check_and_union_revmaps rl rr ≠
      .error (.panic "internal error: entered unreachable code") := by
  have hrm : rl = rr := by
    rw [dtypeEq] at h
    simp only [Bool.and_eq_true, decide_eq_true_eq] at h
    exact h.1
  subst hrm
  cases rl with
  | none => simp [check_and_union_revmaps]
  | some rm =>
      cases rm with
      | Local cats hash =>
          simp [check_and_union_revmaps]
      | Global map srcId =>
          simp [check_and_union_revmaps]

/-- C9 witness: the theorem at a concrete pair of equal Local categorical
dtypes. -/
theorem check_and_union_revmaps_no_unreachable_witness :
    check_and_union_revmaps (some (.Local ["a"] 1)) (some (.Local ["a"] 1)) ≠
      .error (.panic "internal error: entered unreachable code") :=
  check_and_union_revmaps_no_unreachable (some (.Local ["a"] 1)) (some (.Local ["a"] 1))
    .physical .physical rfl

/-- C5: after the schema check (when requested), the key dtype check and
the categorical-compatibility check pass, an empty right key returns the
left frame unchanged — the very value, columns, dtypes and dictionaries
included, with no indicator computation or column merging — and an empty
left key (with a nonempty right key) returns the right frame unchanged. -/
theorem merge_sorted_dfs_empty_shortcuts
    (left right : DataFrame) (left_s right_s : Series) (check_schema : Bool)
    (hschema : check_schema = true → schema_equal left right = true)
    (hdty : dtypeEq left_s.dtype right_s.dtype = true)
    (hcat : catCompatCheck left_s right_s = .ok ()) :
    (psLength right_s.phys = 0 →
      _merge_sorted_dfs left right left_s right_s check_schema = .ok left) ∧
    (psLength right_s.phys ≠ 0 → psLength left_s.phys = 0 →
      _merge_sorted_dfs left right left_s right_s check_schema = .ok right) := by
  have hA : ¬(check_schema = true ∧ schema_equal left right = false) := by
    rintro ⟨h1, h2⟩
    rw [hschema h1] at h2
    cases h2
  have hB : ¬(dtypeEq left_s.dtype right_s.dtype = false) := by
    rw [hdty]
    simp
  constructor
  · intro hre
    rw [_merge_sorted_dfs, if_neg hA, if_neg hB, hcat, if_pos hre]
  · intro hrne hle
    rw [_merge_sorted_dfs, if_neg hA, if_neg hB, hcat, if_neg hrne, if_pos hle]

/-- C5 witness: merging a one-column frame with an empty frame on an
`int64` key returns the left frame as-is. -/
theorem merge_sorted_dfs_empty_shortcuts_witness :
    _merge_sorted_dfs ⟨2, [⟨"k", .int64, .numS [some 1, some 2]⟩]⟩
        ⟨0, [⟨"k", .int64, .numS []⟩]⟩
        ⟨"k", .int64, .numS [some 1, some 2]⟩ ⟨"k", .int64, .numS []⟩ true =
      .ok ⟨2, [⟨"k", .int64, .numS [some 1, some 2]⟩]⟩ :=
  (merge_sorted_dfs_empty_shortcuts
      ⟨2, [⟨"k", .int64, .numS [some 1, some 2]⟩]⟩ ⟨0, [⟨"k", .int64, .numS []⟩]⟩
      ⟨"k", .int64, .numS [some 1, some 2]⟩ ⟨"k", .int64, .numS []⟩ true
      (fun _ => rfl) rfl rfl).1 rfl

end MergeSorted
